import Mathlib

/-! Shallow embedding of the firmware_version_checker repository
(src/check_firmware.py and src/firmware_scraper.py).

External collaborators (system_profiler, softwareupdate, curl, the optional
logger) are modelled by their parsed outputs, passed to the embedded
functions as explicit inputs; the fact that a collaborator was invoked is
recorded in an effect trace.  Python dynamic faults (TypeError, IndexError,
AttributeError, UnboundLocalError) are modelled explicitly, since the
scripts install no exception handlers around the relevant code.  Strings
are modelled at the level of their character lists, matching Python string
semantics (code-point indexing, split on a literal separator). -/

namespace FirmwareCheck

/-- Dynamic faults that the Python code can raise and never catches. -/
inductive PyErr
  | typeError
  | indexError
  | attributeError
  | unboundLocalError
deriving DecidableEq

/-- Row of the firmware reference table: the tuple
`(computer name, model identifier, SMC version)` built by
`get_firmware_table` (check_firmware.py line 261, firmware_scraper.py
line 144). -/
structure Row where
  computer : String
  modelId : String
  smc : String
deriving DecidableEq

/-- Outcome of a Python function that may `return`, call `sys.exit`, or
raise an uncaught exception. -/
inductive PyResult
  | ret (v : String)
  | exit (code : Nat)
  | err (e : PyErr)
deriving DecidableEq

/-- The external-collaborator invocations performed by a run. -/
inductive Effect
  | sysProfiler
  | softwareUpdate
  | curlName
  | curlTable
deriving DecidableEq

/-- How a whole run of `main` ends: `sys.exit(code)` or an uncaught fault. -/
inductive Outcome
  | exited (code : Nat)
  | crashed (e : PyErr)
deriving DecidableEq

/-- Observable result of a run of `main`: the collaborators invoked (in
order), the user-visible messages printed or logged (debug-level messages
are omitted), and how the process ended. -/
structure RunResult where
  effects : List Effect
  msgs : List String
  outcome : Outcome
deriving DecidableEq

/-- Single-quote character, used when building message strings. -/
def sq : String := (Char.ofNat 39).toString

/-- Python truthiness of an optional string: `None` and the empty string
are falsy (`if computer_name:` in check_firmware.py line 66). -/
def pyTruthy : Option String → Bool
  | none => false
  | some s => !(s == "")

/-- Python string formatting of a value that is either a string or `None`
(`str(None)` is `"None"`). -/
def pyFmtOpt : Option String → String
  | none => "None"
  | some s => s

/-- Python substring test `pat in s` on character lists: `pat` occurs as a
contiguous (possibly empty) subsequence. -/
def subChars : List Char → List Char → Bool
  | pat, [] => pat.isEmpty
  | pat, c :: rest => pat.isPrefixOf (c :: rest) || subChars pat rest

/-- Python substring test `pat in s` on strings. -/
def pyIn (pat s : String) : Bool := subChars pat.data s.data

/-- Python `s.startswith(p)`. -/
def pyStartsWith (s p : String) : Bool := p.data.isPrefixOf s.data

/-- Python `s[n:]` (slicing by code points). -/
def pyDrop (s : String) (n : Nat) : String := String.mk (s.data.drop n)

/-- Python `s.lower()`; the strings this program lowercases are ASCII. -/
def pyLower (s : String) : String := String.mk (s.data.map Char.toLower)

/-- Python `s.split(' ', 1)[0]`: the part of `s` before the first space
character (check_firmware.py line 157, firmware_scraper.py line 67). -/
def firstToken (s : String) : String :=
  String.mk (s.data.takeWhile (fun c => c != ' '))

/-- Python dict lookup on a dictionary built by repeated assignment from an
association list (a later binding for the same key wins). -/
def dictGet (d : List (String × String)) (k : String) : Option String :=
  d.reverse.lookup k

/-- Hardware-profile key for the model identifier. -/
def kModelId : String := "Model Identifier"

/-- Hardware-profile key for the serial number. -/
def kSerial : String := "Serial Number (system)"

/-- Hardware-profile key for the installed SMC firmware version. -/
def kSMC : String := "SMC Version (system)"

/-- Message logged by check_firmware.py lines 42, 49, 56 for a missing
hardware-profile key. -/
def invalidKeyCk (k : String) : String :=
  "Invalid key in SPHardwareData: " ++ sq ++ k ++ sq

/-- Message printed by firmware_scraper.py lines 15, 21, 27 for a missing
hardware-profile key. -/
def invalidKeySc (k : String) : String := "Invalid key: " ++ sq ++ k ++ sq

/-- Message for a model identifier absent from the reference table
(check_firmware.py line 139, firmware_scraper.py line 56). -/
def noSuchModelMsg (model : String) : String := "No such model ID found: " ++ model

/-- Message announcing disambiguation by computer name
(check_firmware.py line 144, firmware_scraper.py line 58). -/
def multiMsg (name : Option String) : String :=
  "Multiple matches found. Using name: " ++ sq ++ pyFmtOpt name ++ sq

/-- Message for a failed disambiguation
(check_firmware.py line 152, firmware_scraper.py line 64). -/
def noMatchMsg (model : String) (name : Option String) : String :=
  "No match between model ID (" ++ model ++ ") and computer name (" ++
    pyFmtOpt name ++ ")"

/-- Python comparison `line[0] == computer_name` where `computer_name` may
be `None`; comparing a string with `None` is `False`. -/
def rowNameEq (r : Row) (name : Option String) : Bool :=
  match name with
  | some s => r.computer == s
  | none => false

/-- Evaluation of the Python expression `match[2].split(' ', 1)[0]` when
the local `match` holds a *list* of rows (the multiple-match branch):
`match[2]` raises IndexError when the list has fewer than three elements,
and otherwise yields a row tuple, on which `.split` raises AttributeError. -/
def listIndexTwoFault (rs : List Row) : PyErr :=
  match rs[2]? with
  | none => PyErr.indexError
  | some _ => PyErr.attributeError

/-- Body of `get_website_firmware` (check_firmware.py lines 134-157) after
the reference table has been filtered to the rows whose model identifier
equals the target.  In the single-match branch the Python local `match`
holds the row 3-tuple, whose length 3 is never zero, so the row's SMC
column is split and returned.  In the multiple-match branch `match` holds
the list of name-filtered rows; an empty list returns `None`, and a
non-empty list reaches `match[2].split(' ', 1)[0]`, which faults. -/
def websiteFromMatches (model_id : String) (computer_name : Option String)
    (mrows : List Row) : List String × Except PyErr (Option String) :=
  match mrows with
  | [] => ([noSuchModelMsg model_id], Except.ok none)
  | [r] => ([], Except.ok (some (firstToken r.smc)))
  | rs =>
      if (rs.filter (fun r => rowNameEq r computer_name)).length = 0 then
        ([multiMsg computer_name, noMatchMsg model_id computer_name], Except.ok none)
      else
        ([multiMsg computer_name],
          Except.error (listIndexTwoFault (rs.filter (fun r => rowNameEq r computer_name))))

/-- Embeds `get_website_firmware` (check_firmware.py lines 120-157), with
the fetched reference table passed in as `table`.  Returns the warn/error
messages it logs together with its result (`None` or a version string) or
an uncaught fault. -/
def get_website_firmware (model_id : String) (computer_name : Option String)
    (table : List Row) : List String × Except PyErr (Option String) :=
  websiteFromMatches model_id computer_name
    (table.filter (fun r => r.modelId == model_id))

/-- Body of `get_desired_firmware` (firmware_scraper.py lines 52-67) after
the model-identifier filter.  In the zero-match branch the Python local
`match` is never assigned, so the subsequent `len(match)` raises
UnboundLocalError.  An empty name-filtered list prints a message and calls
`sys.exit(5)`; a non-empty one reaches `match[2].split(' ', 1)[0]`, which
faults as in the other variant. -/
def desiredFromMatches (model_id : String) (computer_name : Option String)
    (mrows : List Row) : List String × PyResult :=
  match mrows with
  | [] => ([noSuchModelMsg model_id], PyResult.err PyErr.unboundLocalError)
  | [r] => ([], PyResult.ret (firstToken r.smc))
  | rs =>
      if (rs.filter (fun r => rowNameEq r computer_name)).length = 0 then
        ([multiMsg computer_name, noMatchMsg model_id computer_name], PyResult.exit 5)
      else
        ([multiMsg computer_name],
          PyResult.err (listIndexTwoFault (rs.filter (fun r => rowNameEq r computer_name))))

/-- Embeds `get_desired_firmware` (firmware_scraper.py lines 47-67), with
the fetched reference table passed in as `table`. -/
def get_desired_firmware (model_id : String) (computer_name : Option String)
    (table : List Row) : List String × PyResult :=
  desiredFromMatches model_id computer_name
    (table.filter (fun r => r.modelId == model_id))

/-- The exact bullet marker `"   * "` prefixing each update entry in
`softwareupdate -l` output (check_firmware.py line 113). -/
def bulletMark : String := "   * "

/-- Embeds `check_software_update` (check_firmware.py lines 94-118), with
the output of `softwareupdate -l`, already split on newlines, passed in as
`lines`.  Accessing `lines[4]` on shorter output raises IndexError. -/
def check_software_update (lines : List String) : Except PyErr (List String) :=
  match lines[4]? with
  | none => Except.error PyErr.indexError
  | some l4 =>
    if l4 = "" then Except.ok []
    else
      Except.ok ((((lines.drop 5).filter (fun item => pyStartsWith item bulletMark)).map
        (fun item => pyDrop item 5)).filter
          (fun item => pyIn "firm" (pyLower item) || pyIn "efi" (pyLower item)))

/-- Marker line preceding the reference table on the fetched page
(check_firmware.py line 181, firmware_scraper.py line 82). -/
def sectionsMarker : String := "<div id=\"sections\" itemprop=\"articleBody\">"

/-- The loop of check_firmware.py lines 175-182 (firmware_scraper.py lines
76-83): scan the page for the marker line and grab the line that follows
it, or `None` when the marker is absent or is the last line. -/
def findAfterMarker : List String → Option String
  | [] => none
  | l :: ls => if l = sectionsMarker then ls.head? else findAfterMarker ls

/-- Embeds the section-location and entity-substitution steps of
`get_firmware_table` (check_firmware.py lines 174-216, firmware_scraper.py
lines 76-109), with the fetched page, already split on newlines, passed in
as `page`.  When the loop grabs no line, `table_section` is `None` and the
first `re.sub` call — `re.sub(r"&NewLine;", "", None)` — raises TypeError;
every later step of the function is a total string operation.  The five
substitutions have literal patterns and are modelled by literal
replacement. -/
def getFirmwareTableSection (page : List String) : Except PyErr String :=
  match findAfterMarker page with
  | none => Except.error PyErr.typeError
  | some s =>
      Except.ok (((((s.replace "&NewLine;" "").replace "&Tab;" "").replace
        "&nbsp;" "").replace "&lpar;" "(").replace "&rpar;" ")")

/-- Python condition
`not (website_firmware is None or website_firmware == '' or website_firmware == current_firmware)`
(check_firmware.py line 74). -/
def websiteAvail (wf : Option String) (current : String) : Bool :=
  match wf with
  | none => false
  | some s => !(s == "" || s == current)

/-- Line fragment prefixed to each softwareupdate entry in the report
(check_firmware.py line 87). -/
def swLine : String := "\n    softwareupdate: "

/-- Report text built by check_firmware.py lines 82-87: a header, an Apple
support site line when the website signal fired, and one line per
softwareupdate entry. -/
def buildOutput (wf : Option String) (current : String) (sw : List String) : String :=
  let out1 :=
    if websiteAvail wf current then
      "Firmware updates found:" ++ "\n    Apple support site: " ++ pyFmtOpt wf
    else "Firmware updates found:"
  if sw.length != 0 then sw.foldl (fun acc u => acc ++ swLine ++ u) out1 else out1

/-- Decision and reporting step of check_firmware.py lines 73-92, given
the effect trace and messages accumulated so far. -/
def checkReport (effects : List Effect) (msgs : List String) (wf : Option String)
    (current : String) (sw : List String) : RunResult :=
  if !(websiteAvail wf current || sw.length != 0) then
    ⟨effects, msgs ++ ["No new firmware version identified."], Outcome.exited 0⟩
  else
    ⟨effects, msgs ++ [buildOutput wf current sw], Outcome.exited 10⟩

/-- Embeds `main` of check_firmware.py (lines 23-92).  The parsed
hardware profile is `hw`; the split output of `softwareupdate -l` is
`swLines`; the value returned by the network collaborator
`get_computer_name` is `nameRes`; the parsed reference table is `table`. -/
def checkMain (hw : List (String × String)) (swLines : List String)
    (nameRes : Option String) (table : List Row) : RunResult :=
  match dictGet hw kModelId with
  | none => ⟨[Effect.sysProfiler], [invalidKeyCk kModelId], Outcome.exited 2⟩
  | some model_id =>
    match dictGet hw kSerial with
    | none => ⟨[Effect.sysProfiler], [invalidKeyCk kSerial], Outcome.exited 2⟩
    | some _serial =>
      match dictGet hw kSMC with
      | none => ⟨[Effect.sysProfiler], [invalidKeyCk kSMC], Outcome.exited 2⟩
      | some current_firmware =>
        match check_software_update swLines with
        | Except.error e =>
            ⟨[Effect.sysProfiler, Effect.softwareUpdate], [], Outcome.crashed e⟩
        | Except.ok sw_update_firmware =>
          if pyTruthy nameRes then
            match get_website_firmware model_id nameRes table with
            | (ms, Except.error e) =>
                ⟨[Effect.sysProfiler, Effect.softwareUpdate, Effect.curlName,
                  Effect.curlTable], ms, Outcome.crashed e⟩
            | (ms, Except.ok wf) =>
                checkReport
                  [Effect.sysProfiler, Effect.softwareUpdate, Effect.curlName,
                    Effect.curlTable] ms wf current_firmware sw_update_firmware
          else
            checkReport [Effect.sysProfiler, Effect.softwareUpdate, Effect.curlName]
              ["Unable to look up website firmware information."] none
              current_firmware sw_update_firmware

/-- Embeds `main` of firmware_scraper.py (lines 7-45).  The scraper never
consults `softwareupdate`; `desired_firmware` is a string whenever
`get_desired_firmware` returns, so the `is None` disjunct of line 37 never
holds. -/
def scrapeMain (hw : List (String × String)) (nameRes : Option String)
    (table : List Row) : RunResult :=
  match dictGet hw kModelId with
  | none => ⟨[Effect.sysProfiler], [invalidKeySc kModelId], Outcome.exited 2⟩
  | some model_id =>
    match dictGet hw kSerial with
    | none => ⟨[Effect.sysProfiler], [invalidKeySc kSerial], Outcome.exited 2⟩
    | some _serial =>
      match dictGet hw kSMC with
      | none => ⟨[Effect.sysProfiler], [invalidKeySc kSMC], Outcome.exited 2⟩
      | some current_firmware =>
        match get_desired_firmware model_id nameRes table with
        | (ms, PyResult.err e) =>
            ⟨[Effect.sysProfiler, Effect.curlName, Effect.curlTable], ms,
              Outcome.crashed e⟩
        | (ms, PyResult.exit n) =>
            ⟨[Effect.sysProfiler, Effect.curlName, Effect.curlTable], ms,
              Outcome.exited n⟩
        | (ms, PyResult.ret v) =>
          if v = "" ∨ v = current_firmware then
            ⟨[Effect.sysProfiler, Effect.curlName, Effect.curlTable],
              ms ++ ["No new firmware version identified."], Outcome.exited 0⟩
          else
            ⟨[Effect.sysProfiler, Effect.curlName, Effect.curlTable],
              ms ++ ["New firmware version available: " ++ v], Outcome.exited 1⟩

/-- Value of check_firmware.py's `website_firmware` local as determined by
lines 66-71: `get_website_firmware` is consulted only when the resolved
computer name is truthy, otherwise the value is `None`. -/
def websiteFirmwareResult (model_id : String) (nameRes : Option String)
    (table : List Row) : Except PyErr (Option String) :=
  if pyTruthy nameRes then (get_website_firmware model_id nameRes table).2
  else Except.ok none

/-- Formalisation of the wording of the spec (§8) for the update filter:
take the lines at index 5 onward that begin with the exact 5-character
bullet marker, strip that marker, and keep exactly the stripped names
whose lowercased form contains "firm" or "efi", in their original order. -/
def specFirmwareUpdates (lines : List String) : List String :=
  (((lines.drop 5).filter (fun l => pyStartsWith l bulletMark)).map
    (fun l => pyDrop l 5)).filter
      (fun name => pyIn "firm" (pyLower name) || pyIn "efi" (pyLower name))

/-- Formalisation of the wording of the claim for the resolved version:
the first whitespace-delimited token of a string, i.e. its longest prefix
containing no whitespace character. -/
def specWhitespaceToken (s : String) : String :=
  String.mk (s.data.takeWhile (fun c => !c.isWhitespace))

/-- Formalisation of the amended wording: the portion of a string before
its first space character (the string itself when it has no space). -/
def tokenBeforeSpace : List Char → List Char
  | [] => []
  | c :: rest => if c = ' ' then [] else c :: tokenBeforeSpace rest

/-- Appending strings concatenates their character lists. -/
theorem strDataAppend (s t : String) : (s ++ t).data = s.data ++ t.data := by
  cases s
  cases t
  rfl

/-- The split-on-first-space token is the portion before the first space. -/
theorem takeWhile_eq_tokenBeforeSpace (l : List Char) :
    l.takeWhile (fun c => c != ' ') = tokenBeforeSpace l := by
  induction l with
  | nil => rfl
  | cons c rest ih =>
    by_cases hc : c = ' '
    · simp [List.takeWhile_cons, tokenBeforeSpace, hc]
    · simp [List.takeWhile_cons, tokenBeforeSpace, hc, bne_iff_ne, ih]

/-- The `firstToken` of the source equals the amended-wording token. -/
theorem firstToken_eq_tokenBeforeSpace (s : String) :
    firstToken s = String.mk (tokenBeforeSpace s.data) := by
  unfold firstToken
  rw [takeWhile_eq_tokenBeforeSpace]

/-- C1: on a table in which two rows carry the target model identifier and
the resolved computer name equals the first column of exactly one of them,
the claim says the matcher selects that row and returns its firmware
version ("1.0" here).  Instead, both variants bind the Python local
`match` to the one-element filtered list and then evaluate `match[2]`,
which raises an uncaught IndexError. -/
theorem c1_disambiguation_raises_indexerror :
    (get_website_firmware "M" (some "A")
      [⟨"A", "M", "1.0 x"⟩, ⟨"B", "M", "2.0 y"⟩]).2 =
        Except.error PyErr.indexError ∧
    (get_desired_firmware "M" (some "A")
      [⟨"A", "M", "1.0 x"⟩, ⟨"B", "M", "2.0 y"⟩]).2 =
        PyResult.err PyErr.indexError := by
  exact ⟨rfl, rfl⟩

/-- C2: on a table with no row carrying the target model identifier, the
check_firmware variant reports "not found" and returns `None` as the claim
states, but the firmware_scraper variant leaves the Python local `match`
unassigned and the subsequent `len(match)` raises an uncaught
UnboundLocalError. -/
theorem c2_zero_matches_unboundlocal :
    get_website_firmware "iMac9,1" (some "N") [⟨"A", "M", "1.0"⟩] =
      (["No such model ID found: iMac9,1"], Except.ok none) ∧
    get_desired_firmware "iMac9,1" (some "N") [⟨"A", "M", "1.0"⟩] =
      (["No such model ID found: iMac9,1"], PyResult.err PyErr.unboundLocalError) := by
  exact ⟨rfl, rfl⟩

/-- C3: when the model identifier matches more than one row and the
secondary filter on the resolved computer name yields zero rows, the
firmware_scraper variant terminates with exit code 5, while the
check_firmware variant logs the mismatch and returns `None`. -/
theorem c3_empty_disambiguation (model : String) (name : Option String)
    (table : List Row) (a b : Row) (t : List Row)
    (hm : table.filter (fun r => r.modelId == model) = a :: b :: t)
    (h2 : (a :: b :: t).filter (fun r => rowNameEq r name) = []) :
    (get_desired_firmware model name table).2 = PyResult.exit 5 ∧
    (get_website_firmware model name table).2 = Except.ok none ∧
    noMatchMsg model name ∈ (get_website_firmware model name table).1 := by
  unfold get_desired_firmware get_website_firmware
  rw [hm]
  simp [desiredFromMatches, websiteFromMatches, h2]

/-- Witness for C3 at a concrete table: model "M" matches two rows, the
name "C" matches neither. -/
theorem c3_empty_disambiguation_witness :
    (get_desired_firmware "M" (some "C")
      [⟨"A", "M", "1.0"⟩, ⟨"B", "M", "2.0"⟩]).2 = PyResult.exit 5 ∧
    (get_website_firmware "M" (some "C")
      [⟨"A", "M", "1.0"⟩, ⟨"B", "M", "2.0"⟩]).2 = Except.ok none ∧
    noMatchMsg "M" (some "C") ∈
      (get_website_firmware "M" (some "C")
        [⟨"A", "M", "1.0"⟩, ⟨"B", "M", "2.0"⟩]).1 :=
  c3_empty_disambiguation "M" (some "C") _ ⟨"A", "M", "1.0"⟩ ⟨"B", "M", "2.0"⟩ []
    rfl rfl

/-- C7 counterexample: with a single matching row whose firmware column is
"2.3\t1f4 Build 9", the first whitespace-delimited token is "2.3" (the tab
is whitespace), but the code splits on the space character only and
resolves "2.3\t1f4". -/
theorem c7_counterexample :
    (get_website_firmware "M" (some "A") [⟨"A", "M", "2.3\t1f4 Build 9"⟩]).2 =
      Except.ok (some "2.3\t1f4") ∧
    specWhitespaceToken "2.3\t1f4 Build 9" = "2.3" ∧
    ("2.3\t1f4" : String) ≠ "2.3" := by
  refine ⟨rfl, rfl, by decide⟩

/-- C7 (amended): for every reference table with exactly one row whose
model identifier equals the target, both variants resolve the portion of
that row's firmware column before the first space character (split on
the space character only), discarding the trailing description. -/
theorem c7_single_match_token (model : String) (name : Option String)
    (table : List Row) (r : Row)
    (hm : table.filter (fun x => x.modelId == model) = [r]) :
    (get_website_firmware model name table).2 =
      Except.ok (some (String.mk (tokenBeforeSpace r.smc.data))) ∧
    (get_desired_firmware model name table).2 =
      PyResult.ret (String.mk (tokenBeforeSpace r.smc.data)) := by
  unfold get_desired_firmware get_website_firmware
  rw [hm]
  simp [desiredFromMatches, websiteFromMatches, firstToken_eq_tokenBeforeSpace]

/-- Witness for the amended C7 at the example of the spec:
"2.3.1f4 Build 1234" resolves to "2.3.1f4". -/
theorem c7_single_match_token_witness :
    (get_website_firmware "M" (some "A") [⟨"A", "M", "2.3.1f4 Build 1234"⟩]).2 =
      Except.ok (some "2.3.1f4") ∧
    (get_desired_firmware "M" (some "A") [⟨"A", "M", "2.3.1f4 Build 1234"⟩]).2 =
      PyResult.ret "2.3.1f4" :=
  c7_single_match_token "M" (some "A") _ ⟨"A", "M", "2.3.1f4 Build 1234"⟩ rfl

/-- C8: when the line at index 4 of the softwareupdate output is
non-empty, `check_software_update` returns exactly the names described by
the spec: the lines from index 5 onward that begin with the exact bullet
marker, stripped of it, filtered case-insensitively for "firm" or "efi",
in their original order. -/
theorem c8_update_filter (lines : List String) (l4 : String)
    (h4 : lines[4]? = some l4) (hne : l4 ≠ "") :
    check_software_update lines = Except.ok (specFirmwareUpdates lines) := by
  unfold check_software_update
  rw [h4]
  simp [hne, specFirmwareUpdates]

/-- Witness for C8: "Mac EFI Firmware" is kept (case-insensitively), the
non-bullet line and "Safari" are dropped. -/
theorem c8_update_filter_witness :
    check_software_update
      ["h0", "h1", "h2", "h3", "x", "junk", "   * Mac EFI Firmware", "   * Safari"] =
      Except.ok (specFirmwareUpdates
        ["h0", "h1", "h2", "h3", "x", "junk", "   * Mac EFI Firmware", "   * Safari"]) :=
  c8_update_filter
    ["h0", "h1", "h2", "h3", "x", "junk", "   * Mac EFI Firmware", "   * Safari"]
    "x" rfl (by decide)

/-- C9: when the line at index 4 of the softwareupdate output is the empty
string, `check_software_update` returns the empty list, whatever the later
lines contain. -/
theorem c9_empty_header_line (lines : List String)
    (h4 : lines[4]? = some "") :
    check_software_update lines = Except.ok [] := by
  unfold check_software_update
  rw [h4]
  simp

/-- Witness for C9: the bullet firmware line after the empty index-4 line
is ignored. -/
theorem c9_empty_header_line_witness :
    check_software_update ["h0", "h1", "h2", "h3", "", "   * Mac EFI Firmware"] =
      Except.ok [] :=
  c9_empty_header_line ["h0", "h1", "h2", "h3", "", "   * Mac EFI Firmware"] rfl

/-- The accumulator is contained in the result of the report fold. -/
theorem foldl_acc_contains (sep : String) (l : List String) :
    ∀ acc : String,
      acc.data <:+: (l.foldl (fun a x => a ++ sep ++ x) acc).data := by
  induction l with
  | nil => intro acc; exact List.infix_rfl
  | cons b t ih =>
    intro acc
    have h1 : acc.data <:+: (acc ++ sep ++ b).data := by
      rw [strDataAppend, strDataAppend, List.append_assoc]
      exact (List.prefix_append acc.data (sep.data ++ b.data)).isInfix
    exact h1.trans (ih (acc ++ sep ++ b))

/-- Each listed entry, with its separator, is contained in the result of
the report fold. -/
theorem foldl_mem_contains (sep : String) (l : List String) :
    ∀ acc u : String, u ∈ l →
      (sep ++ u).data <:+: (l.foldl (fun a x => a ++ sep ++ x) acc).data := by
  induction l with
  | nil => intro acc u h; cases h
  | cons b t ih =>
    intro acc u h
    rcases List.mem_cons.mp h with h | h
    · subst h
      have h1 : (sep ++ u).data <:+ (acc ++ sep ++ u).data := by
        rw [strDataAppend, strDataAppend, strDataAppend, List.append_assoc]
        exact List.suffix_append acc.data (sep.data ++ u.data)
      exact h1.isInfix.trans (foldl_acc_contains sep t (acc ++ sep ++ u))
    · exact ih (acc ++ sep ++ b) u h

/-- When the website signal fired, the report text contains the Apple
support site line with the resolved version. -/
theorem buildOutput_site_contains (wf : Option String) (cur : String)
    (sw : List String) (h : websiteAvail wf cur = true) :
    ("Apple support site: " ++ pyFmtOpt wf).data <:+:
      (buildOutput wf cur sw).data := by
  unfold buildOutput
  rw [if_pos h]
  have key : ("Firmware updates found:" ++ "\n    Apple support site: " ++
      pyFmtOpt wf).data =
      ("Firmware updates found:\n    " : String).data ++
        ("Apple support site: " ++ pyFmtOpt wf).data := by
    simp only [show ("Firmware updates found:" ++ "\n    Apple support site: " : String) =
      "Firmware updates found:\n    " ++ "Apple support site: " from rfl,
      strDataAppend, List.append_assoc]
  have h1 : ("Apple support site: " ++ pyFmtOpt wf).data <:+
      ("Firmware updates found:" ++ "\n    Apple support site: " ++ pyFmtOpt wf).data := by
    rw [key]
    exact List.suffix_append _ _
  cases hl : (sw.length != 0) with
  | false => simpa using h1.isInfix
  | true =>
    simp only [if_pos]
    exact h1.isInfix.trans (foldl_acc_contains swLine sw _)

/-- Every softwareupdate entry appears in the report text with its
"softwareupdate: " label. -/
theorem buildOutput_sw_contains (wf : Option String) (cur : String)
    (sw : List String) (u : String) (hu : u ∈ sw) :
    ("softwareupdate: " ++ u).data <:+: (buildOutput wf cur sw).data := by
  unfold buildOutput
  have hne : (sw.length != 0) = true := by
    cases sw with
    | nil => cases hu
    | cons a t => simp
  rw [hne]
  simp only [if_pos]
  have key : (swLine ++ u).data =
      ("\n    " : String).data ++ ("softwareupdate: " ++ u).data := by
    simp only [show swLine = "\n    " ++ "softwareupdate: " from rfl,
      strDataAppend, List.append_assoc]
  have h1 : ("softwareupdate: " ++ u).data <:+ (swLine ++ u).data := by
    rw [key]
    exact List.suffix_append _ _
  exact (h1.isInfix.trans (foldl_mem_contains swLine sw _ u hu))

/-- C4: when any of the three required hardware-profile keys is absent
from the parsed profile mapping, both variants exit with code 2 having
invoked only the hardware profiler: no softwareupdate call and no curl
call (neither the name lookup nor the table fetch) is performed. -/
theorem c4_missing_key_exits_two (hw : List (String × String))
    (swLines : List String) (nameRes : Option String) (table : List Row)
    (h : dictGet hw kModelId = none ∨ dictGet hw kSerial = none ∨
      dictGet hw kSMC = none) :
    (checkMain hw swLines nameRes table).outcome = Outcome.exited 2 ∧
    (checkMain hw swLines nameRes table).effects = [Effect.sysProfiler] ∧
    (scrapeMain hw nameRes table).outcome = Outcome.exited 2 ∧
    (scrapeMain hw nameRes table).effects = [Effect.sysProfiler] ∧
    Effect.softwareUpdate ∉ (checkMain hw swLines nameRes table).effects ∧
    Effect.curlName ∉ (checkMain hw swLines nameRes table).effects ∧
    Effect.curlTable ∉ (checkMain hw swLines nameRes table).effects ∧
    Effect.curlName ∉ (scrapeMain hw nameRes table).effects ∧
    Effect.curlTable ∉ (scrapeMain hw nameRes table).effects := by
  rcases h with h | h | h
  · simp [checkMain, scrapeMain, h]
  · cases hm : dictGet hw kModelId with
    | none => simp [checkMain, scrapeMain, hm]
    | some m => simp [checkMain, scrapeMain, hm, h]
  · cases hm : dictGet hw kModelId with
    | none => simp [checkMain, scrapeMain, hm]
    | some m =>
      cases hs : dictGet hw kSerial with
      | none => simp [checkMain, scrapeMain, hm, hs]
      | some s => simp [checkMain, scrapeMain, hm, hs, h]

/-- Witness for C4 on an empty profile mapping, where every key is
absent. -/
theorem c4_missing_key_exits_two_witness :
    (checkMain [] ["h0", "h1", "h2", "h3", ""] (some "A") []).outcome =
      Outcome.exited 2 ∧
    (checkMain [] ["h0", "h1", "h2", "h3", ""] (some "A") []).effects =
      [Effect.sysProfiler] ∧
    (scrapeMain [] (some "A") []).outcome = Outcome.exited 2 ∧
    (scrapeMain [] (some "A") []).effects = [Effect.sysProfiler] ∧
    Effect.softwareUpdate ∉ (checkMain [] ["h0", "h1", "h2", "h3", ""] (some "A") []).effects ∧
    Effect.curlName ∉ (checkMain [] ["h0", "h1", "h2", "h3", ""] (some "A") []).effects ∧
    Effect.curlTable ∉ (checkMain [] ["h0", "h1", "h2", "h3", ""] (some "A") []).effects ∧
    Effect.curlName ∉ (scrapeMain [] (some "A") []).effects ∧
    Effect.curlTable ∉ (scrapeMain [] (some "A") []).effects :=
  c4_missing_key_exits_two [] ["h0", "h1", "h2", "h3", ""] (some "A") []
    (Or.inl rfl)

/-- The reporting step prints the no-update message and exits 0 when the
website value is none, empty or equal to the installed version and the
softwareupdate list is empty. -/
theorem checkReport_no_update (effects : List Effect) (msgs : List String)
    (wf : Option String) (current : String)
    (hv : wf = none ∨ wf = some "" ∨ wf = some current) :
    (checkReport effects msgs wf current []).outcome = Outcome.exited 0 ∧
    "No new firmware version identified." ∈
      (checkReport effects msgs wf current []).msgs := by
  rcases hv with hv | hv | hv <;> subst hv <;> simp [checkReport, websiteAvail]

/-- C5: each variant is quantified over its own runs.  On a check_firmware
run in which the reference-site firmware value (the `website_firmware`
local, possibly `None`) is `None`, empty, or equal to the installed
firmware, and the softwareupdate firmware list is empty, the program
prints "No new firmware version identified." and exits with code 0.  On a
firmware_scraper run in which its resolved reference-site value exists and
is empty or equal to the installed firmware, it prints the same message
and exits 0 (its value is a string whenever `get_desired_firmware`
returns, so the `is None` disjunct of line 37 never holds, and it consults
no OS updater, so its softwareupdate list is vacuously empty). -/
theorem c5_no_update_exit_zero (hw : List (String × String))
    (swLines : List String) (nameRes : Option String) (table : List Row)
    (model_id serial current v : String) (wf : Option String)
    (msB : List String)
    (hm : dictGet hw kModelId = some model_id)
    (hs : dictGet hw kSerial = some serial)
    (hc : dictGet hw kSMC = some current) :
    ((check_software_update swLines = Except.ok [] ∧
      websiteFirmwareResult model_id nameRes table = Except.ok wf ∧
      (wf = none ∨ wf = some "" ∨ wf = some current)) →
      (checkMain hw swLines nameRes table).outcome = Outcome.exited 0 ∧
      "No new firmware version identified." ∈
        (checkMain hw swLines nameRes table).msgs) ∧
    ((get_desired_firmware model_id nameRes table = (msB, PyResult.ret v) ∧
      (v = "" ∨ v = current)) →
      (scrapeMain hw nameRes table).outcome = Outcome.exited 0 ∧
      "No new firmware version identified." ∈ (scrapeMain hw nameRes table).msgs) := by
  constructor
  · rintro ⟨hsw, hwf, hv⟩
    simp only [checkMain, hm, hs, hc, hsw]
    cases ht : pyTruthy nameRes with
    | false =>
      unfold websiteFirmwareResult at hwf
      rw [ht] at hwf
      simp only [Bool.false_eq_true, if_false] at hwf
      have hwfn : wf = none := by
        simpa using (Except.ok.inj hwf).symm
      subst hwfn
      simp only [Bool.false_eq_true, if_false]
      exact checkReport_no_update _ _ none current hv
    | true =>
      have hwf2 : (get_website_firmware model_id nameRes table).2 = Except.ok wf := by
        unfold websiteFirmwareResult at hwf
        rw [ht] at hwf
        simpa using hwf
      cases hg : get_website_firmware model_id nameRes table with
      | mk ms r =>
        rw [hg] at hwf2
        simp only at hwf2
        subst hwf2
        simp only [hg, if_true]
        exact checkReport_no_update _ _ wf current hv
  · rintro ⟨hd, hveq⟩
    simp only [scrapeMain, hm, hs, hc, hd]
    rw [if_pos hveq]
    exact ⟨rfl, by simp⟩

/-- Witness for C5, discharging both implications.  The check_firmware
variant is exercised on a run whose website value is `None` (truthy name
but a table without the model, the case the claim names explicitly) with
an empty softwareupdate list; the firmware_scraper variant on a run whose
resolved version equals the installed "1.0". -/
theorem c5_no_update_exit_zero_witness :
    ((checkMain
        [("Model Identifier", "M"), ("Serial Number (system)", "S"),
          ("SMC Version (system)", "1.0")]
        ["h0", "h1", "h2", "h3", ""] (some "A") [⟨"A", "X", "9.9"⟩]).outcome =
        Outcome.exited 0 ∧
      "No new firmware version identified." ∈
        (checkMain
          [("Model Identifier", "M"), ("Serial Number (system)", "S"),
            ("SMC Version (system)", "1.0")]
          ["h0", "h1", "h2", "h3", ""] (some "A") [⟨"A", "X", "9.9"⟩]).msgs) ∧
    ((scrapeMain
        [("Model Identifier", "M"), ("Serial Number (system)", "S"),
          ("SMC Version (system)", "1.0")]
        (some "A") [⟨"A", "M", "1.0 Build 7"⟩]).outcome = Outcome.exited 0 ∧
      "No new firmware version identified." ∈
        (scrapeMain
          [("Model Identifier", "M"), ("Serial Number (system)", "S"),
            ("SMC Version (system)", "1.0")]
          (some "A") [⟨"A", "M", "1.0 Build 7"⟩]).msgs) :=
  ⟨(c5_no_update_exit_zero
      [("Model Identifier", "M"), ("Serial Number (system)", "S"),
        ("SMC Version (system)", "1.0")]
      ["h0", "h1", "h2", "h3", ""] (some "A") [⟨"A", "X", "9.9"⟩]
      "M" "S" "1.0" "" none [] rfl rfl rfl).1 ⟨rfl, rfl, Or.inl rfl⟩,
    (c5_no_update_exit_zero
      [("Model Identifier", "M"), ("Serial Number (system)", "S"),
        ("SMC Version (system)", "1.0")]
      ["h0", "h1", "h2", "h3", ""] (some "A") [⟨"A", "M", "1.0 Build 7"⟩]
      "M" "S" "1.0" "1.0" (some "1.0") [] rfl rfl rfl).2 ⟨rfl, Or.inr rfl⟩⟩

/-- The reporting step prints the report text and exits 10 when the
website signal or the softwareupdate signal fired. -/
theorem checkReport_update (effects : List Effect) (msgs : List String)
    (wf : Option String) (current : String) (sw : List String)
    (h : websiteAvail wf current = true ∨ sw ≠ []) :
    (checkReport effects msgs wf current sw).outcome = Outcome.exited 10 ∧
    buildOutput wf current sw ∈ (checkReport effects msgs wf current sw).msgs := by
  have hcond : (!(websiteAvail wf current || sw.length != 0)) = false := by
    rcases h with h | h
    · simp [h]
    · have hb : (sw.length != 0) = true := by
        cases sw with
        | nil => exact absurd rfl h
        | cons a t => simp
      simp [hb]
  unfold checkReport
  simp [hcond]

/-- C6 counterexample: a run in which an update signal fires — the
softwareupdate firmware list is non-empty — yet the firmware_scraper
variant does not exit with the distinct non-zero code 1 the claim assigns
it: the scraper consults no OS updater, its resolved version "1.0" equals
the installed one, and it prints the no-update message and exits 0, while
the check_firmware variant exits 10 as the claim states. -/
theorem c6_counterexample :
    check_software_update ["h0", "h1", "h2", "h3", "x", "   * Mac EFI Firmware"] =
      Except.ok ["Mac EFI Firmware"] ∧
    (checkMain
        [("Model Identifier", "M"), ("Serial Number (system)", "S"),
          ("SMC Version (system)", "1.0")]
        ["h0", "h1", "h2", "h3", "x", "   * Mac EFI Firmware"]
        (some "A") [⟨"A", "M", "1.0 x"⟩]).outcome = Outcome.exited 10 ∧
    (scrapeMain
        [("Model Identifier", "M"), ("Serial Number (system)", "S"),
          ("SMC Version (system)", "1.0")]
        (some "A") [⟨"A", "M", "1.0 x"⟩]).outcome = Outcome.exited 0 := by
  exact ⟨rfl, rfl, rfl⟩

/-- C6 (amended): each variant reports on the update signals it itself
computes.  In the check_firmware variant the signals are the
reference-site version (non-`None`, non-empty, different from the
installed one) and a non-empty softwareupdate firmware list; when at least
one fires it prints the report listing each available source and exits
with code 10, the report containing the Apple support site line when that
signal fired and one labelled line per softwareupdate entry.  The
firmware_scraper variant computes no softwareupdate signal; when its
resolved reference-site version is non-empty and different from the
installed one it prints the new version and exits with code 1. -/
theorem c6_update_found (hw : List (String × String)) (swLines : List String)
    (nameRes : Option String) (table : List Row)
    (model_id serial current v : String) (wf : Option String)
    (msB swList : List String)
    (hm : dictGet hw kModelId = some model_id)
    (hs : dictGet hw kSerial = some serial)
    (hc : dictGet hw kSMC = some current) :
    ((check_software_update swLines = Except.ok swList ∧
      websiteFirmwareResult model_id nameRes table = Except.ok wf ∧
      (websiteAvail wf current = true ∨ swList ≠ [])) →
      (checkMain hw swLines nameRes table).outcome = Outcome.exited 10 ∧
      buildOutput wf current swList ∈ (checkMain hw swLines nameRes table).msgs ∧
      (websiteAvail wf current = true →
        ("Apple support site: " ++ pyFmtOpt wf).data <:+:
          (buildOutput wf current swList).data) ∧
      (∀ u ∈ swList, ("softwareupdate: " ++ u).data <:+:
        (buildOutput wf current swList).data)) ∧
    ((get_desired_firmware model_id nameRes table = (msB, PyResult.ret v) ∧
      v ≠ "" ∧ v ≠ current) →
      (scrapeMain hw nameRes table).outcome = Outcome.exited 1 ∧
      ("New firmware version available: " ++ v) ∈ (scrapeMain hw nameRes table).msgs) := by
  constructor
  · rintro ⟨hsw, hwf, hva⟩
    have hck : (checkMain hw swLines nameRes table).outcome = Outcome.exited 10 ∧
        buildOutput wf current swList ∈ (checkMain hw swLines nameRes table).msgs := by
      simp only [checkMain, hm, hs, hc, hsw]
      cases ht : pyTruthy nameRes with
      | false =>
        unfold websiteFirmwareResult at hwf
        rw [ht] at hwf
        simp only [Bool.false_eq_true, if_false] at hwf
        have hwfn : wf = none := by
          simpa using (Except.ok.inj hwf).symm
        subst hwfn
        simp only [Bool.false_eq_true, if_false]
        exact checkReport_update _ _ none current swList hva
      | true =>
        have hwf2 : (get_website_firmware model_id nameRes table).2 = Except.ok wf := by
          unfold websiteFirmwareResult at hwf
          rw [ht] at hwf
          simpa using hwf
        cases hg : get_website_firmware model_id nameRes table with
        | mk ms r =>
          rw [hg] at hwf2
          simp only at hwf2
          subst hwf2
          simp only [hg, if_true]
          exact checkReport_update _ _ wf current swList hva
    exact ⟨hck.1, hck.2,
      fun hwa => buildOutput_site_contains wf current swList hwa,
      fun u hu => buildOutput_sw_contains wf current swList u hu⟩
  · rintro ⟨hd, hv1, hv2⟩
    simp only [scrapeMain, hm, hs, hc, hd]
    rw [if_neg (not_or.mpr ⟨hv1, hv2⟩)]
    exact ⟨rfl, by simp⟩

/-- Witness for the amended C6, discharging both implications: installed
firmware "1.0", website version "2.0", one softwareupdate entry
"Mac EFI Firmware"; both check_firmware signals fire, and the scraper
resolves the new version. -/
theorem c6_update_found_witness :
    ((checkMain
        [("Model Identifier", "M"), ("Serial Number (system)", "S"),
          ("SMC Version (system)", "1.0")]
        ["h0", "h1", "h2", "h3", "x", "   * Mac EFI Firmware"]
        (some "A") [⟨"A", "M", "2.0 Build"⟩]).outcome = Outcome.exited 10 ∧
      buildOutput (some "2.0") "1.0" ["Mac EFI Firmware"] ∈
        (checkMain
          [("Model Identifier", "M"), ("Serial Number (system)", "S"),
            ("SMC Version (system)", "1.0")]
          ["h0", "h1", "h2", "h3", "x", "   * Mac EFI Firmware"]
          (some "A") [⟨"A", "M", "2.0 Build"⟩]).msgs ∧
      (websiteAvail (some "2.0") "1.0" = true →
        ("Apple support site: " ++ pyFmtOpt (some "2.0")).data <:+:
          (buildOutput (some "2.0") "1.0" ["Mac EFI Firmware"]).data) ∧
      (∀ u ∈ ["Mac EFI Firmware"], ("softwareupdate: " ++ u).data <:+:
        (buildOutput (some "2.0") "1.0" ["Mac EFI Firmware"]).data)) ∧
    ((scrapeMain
        [("Model Identifier", "M"), ("Serial Number (system)", "S"),
          ("SMC Version (system)", "1.0")]
        (some "A") [⟨"A", "M", "2.0 Build"⟩]).outcome = Outcome.exited 1 ∧
      ("New firmware version available: " ++ "2.0") ∈
        (scrapeMain
          [("Model Identifier", "M"), ("Serial Number (system)", "S"),
            ("SMC Version (system)", "1.0")]
          (some "A") [⟨"A", "M", "2.0 Build"⟩]).msgs) :=
  ⟨(c6_update_found
      [("Model Identifier", "M"), ("Serial Number (system)", "S"),
        ("SMC Version (system)", "1.0")]
      ["h0", "h1", "h2", "h3", "x", "   * Mac EFI Firmware"]
      (some "A") [⟨"A", "M", "2.0 Build"⟩]
      "M" "S" "1.0" "2.0" (some "2.0") [] ["Mac EFI Firmware"]
      rfl rfl rfl).1 ⟨rfl, rfl, Or.inl rfl⟩,
    (c6_update_found
      [("Model Identifier", "M"), ("Serial Number (system)", "S"),
        ("SMC Version (system)", "1.0")]
      ["h0", "h1", "h2", "h3", "x", "   * Mac EFI Firmware"]
      (some "A") [⟨"A", "M", "2.0 Build"⟩]
      "M" "S" "1.0" "2.0" (some "2.0") [] ["Mac EFI Firmware"]
      rfl rfl rfl).2 ⟨rfl, by decide, by decide⟩⟩

/-- The grab loop yields nothing when the marker is absent, or when the
marker line occurs only as the very last line of the page. -/
theorem findAfterMarker_eq_none (page : List String)
    (h : (∀ l ∈ page, l ≠ sectionsMarker) ∨
      (page.getLast? = some sectionsMarker ∧
        ∀ l ∈ page.dropLast, l ≠ sectionsMarker)) :
    findAfterMarker page = none := by
  induction page with
  | nil => rfl
  | cons a tail ih =>
    rcases h with h | ⟨h1, h2⟩
    · have ha : a ≠ sectionsMarker := h a (List.mem_cons_self a tail)
      simp only [findAfterMarker, if_neg ha]
      exact ih (Or.inl (fun l hl => h l (List.mem_cons_of_mem a hl)))
    · cases tail with
      | nil =>
        have ha : a = sectionsMarker := by simpa using h1
        simp [findAfterMarker, ha]
      | cons b t =>
        have ha : a ≠ sectionsMarker := by
          apply h2
          rw [List.dropLast_cons₂]
          exact List.mem_cons_self a _
        simp only [findAfterMarker, if_neg ha]
        refine ih (Or.inr ⟨?_, ?_⟩)
        · rw [List.getLast?_cons_cons] at h1
          exact h1
        · intro l hl
          apply h2
          rw [List.dropLast_cons₂]
          exact List.mem_cons_of_mem a hl

/-- C10: when the fetched reference page contains no line equal to the
fixed marker, or the marker line occurs only as the last line of the page,
the grab loop of `get_firmware_table` leaves `table_section` as `None`,
and the first entity-substitution step applies `re.sub` to `None`, raising
an uncaught TypeError instead of producing an empty row list. -/
theorem c10_missing_marker_faults (page : List String)
    (h : (∀ l ∈ page, l ≠ sectionsMarker) ∨
      (page.getLast? = some sectionsMarker ∧
        ∀ l ∈ page.dropLast, l ≠ sectionsMarker)) :
    getFirmwareTableSection page = Except.error PyErr.typeError := by
  unfold getFirmwareTableSection
  rw [findAfterMarker_eq_none page h]

/-- Witness for C10 on a page whose last line is the marker. -/
theorem c10_missing_marker_faults_witness :
    getFirmwareTableSection ["<html>", sectionsMarker] =
      Except.error PyErr.typeError :=
  c10_missing_marker_faults ["<html>", sectionsMarker]
    (Or.inr ⟨rfl, by decide⟩)

end FirmwareCheck
